import Mathlib

/-!
Verification of the `create` command of the cube.js CLI
(`packages/cubejs-cli/src/command/create.command.ts`, class `CreateCommand`).

The command is a sequential pipeline of side-effecting steps.  We embed it
shallowly: every observable operation (directory creation, manifest write,
package installation, prompt, file write, error report, ...) is recorded in a
trace, and `execute` is a pure function from the inputs and an abstract
environment of external collaborators to the trace plus the data the claims
inspect (the `createAppOptions` record, the possibly mutated `options`
argument, and the `Environment` record used for rendering).
-/

namespace CreateCmd

/-- The `options` argument of `CreateCommand.execute`:
`{ template?: string, dbType?: string }`.  `none` models an absent
(`undefined`) field. -/
structure CmdOptions where
  template : Option String
  dbType : Option String
  deriving DecidableEq, Repr

/-- The `createAppOptions` record built at the start of `execute`:
`{ projectName, dbType: options.dbType, template }`. -/
structure CreateOptions where
  projectName : String
  dbType : Option String
  template : String
  deriving DecidableEq, Repr

/-- The JDBC db-type descriptor returned by `JDBCDriver.dbTypeDescription`;
the command only reads its `mavenDependency` property. -/
structure JdbcDesc where
  mavenDependency : Option String
  deriving DecidableEq, Repr

/-- The `env` record assembled before rendering the template files
(`{ dbType, apiSecret, projectName, driverEnvVariables }`). -/
structure Env where
  dbType : String
  apiSecret : String
  projectName : String
  driverEnvVariables : Option (List String)
  deriving DecidableEq, Repr

/-- A package manifest (`package.json`) as manipulated by the command.
`isPrivate` models the `private` flag (a Lean keyword), `scripts` a JS object
as an association list, and `java = some deps` the presence of a
`java.dependencies` field (`none` means the field is absent). -/
structure PackageJson where
  name : String
  version : String
  isPrivate : Bool
  scripts : List (String × String)
  java : Option (List String)
  deriving DecidableEq, Repr

/-- A template registry entry: `{ scripts, files, dependencies?,
devDependencies? }`, where each file maps a relative path to a renderer, a
pure function of the `Env` record. -/
structure TemplateConfig where
  scripts : List (String × String)
  files : List (String × (Env → String))
  dependencies : Option (List String)
  devDependencies : Option (List String)

/-- One observable operation of the pipeline, in execution order. -/
inductive Effect where
  | event (name : String)
  | displayError (msg : String)
  | ensureDir (dir : String)
  | chdir (dir : String)
  | logStage (msg : String)
  | writePackageJson (pkg : PackageJson)
  | npmInstall (pkgs : List String)
  | prompt (choices : List String) (selected : String)
  | lookupDriverDeps (dbType : String)
  | lookupJdbcDesc (dbType : String)
  | readJson (file : String)
  | executeCommand (cmd : String) (args : List String)
  | writeFile (file : String) (content : String)
  deriving DecidableEq, Repr

/-- Modelled from the spec: the external collaborators of the pipeline that
are not part of this fragment — the filesystem existence check
(`fs.pathExists`), the template registry (`src/templates`), the driver
registry (`DriverDependencies.js` of `@cubejs-backend/server-core`, whose
keys are the prompt choices), the interactive prompt (`inquirer`), the
driver-dependency lookup (`CubejsServer.driverDependencies`), the JDBC
descriptor lookup (`JDBCDriver.dbTypeDescription`), the per-driver
`driverEnvVariables` declaration, and the 64 random bytes drawn by
`crypto.randomBytes(64)`.  Each is modelled by interface, per spec section 6. -/
structure World where
  pathExists : String → Bool
  templates : String → Option TemplateConfig
  driverKeys : List String
  promptChoice : List String → String
  driverDependencies : String → Option (String ⊕ List String)
  dbTypeDescription : String → Option JdbcDesc
  driverEnvVariables : String → Option (List String)
  randomBytes : List Nat

/-- The result of a run of `execute`: the trace of observable operations, the
`createAppOptions` record as it stands at the end of the run, the `options`
argument as it stands at the end of the run (JS objects are mutable), and the
`Env` record when one was constructed. -/
structure ExecResult where
  trace : List Effect
  createAppOptions : CreateOptions
  finalOptions : CmdOptions
  env : Option Env
  deriving Repr

/-- JS truthiness of an optional string: `undefined` and the empty string are
falsy (`options.template || 'express'`, `if (!options.dbType)`). -/
def strTruthy : Option String → Bool
  | none => false
  | some s => if s = "" then false else true

/-- `options.template || 'express'`. -/
def effTemplate : Option String → String
  | none => "express"
  | some t => if t = "" then "express" else t

/-- JS falsiness of the `driverDependencies` lookup result
(`if (!driverDependencies)`): only an empty string is falsy among the
possible string and array results. -/
def ddEmpty : String ⊕ List String → Bool
  | Sum.inl s => if s = "" then true else false
  | Sum.inr _ => false

/-- JS truthiness of the whole (possibly `undefined`) lookup result. -/
def ddTruthy : Option (String ⊕ List String) → Bool
  | none => false
  | some dd => !(ddEmpty dd)

/-- `Array.isArray(d) ? d : [d]`: a non-array lookup result is wrapped into a
one-element list. -/
def normalizeDeps : String ⊕ List String → List String
  | Sum.inl s => [s]
  | Sum.inr l => l

def jdbcDriverPkg : String := "@cubejs-backend/jdbc-driver"

def mavenHelperPkg : String := "node-java-maven"

def mavenInstallScript : String := "./node_modules/.bin/node-java-maven"

/-- The driver install list after the JDBC check: `node-java-maven` is pushed
exactly when the first element is the JDBC bridge driver. -/
def withMavenHelper (n : List String) : List String :=
  if n.head? = some jdbcDriverPkg then n ++ [mavenHelperPkg] else n

/-- JS property assignment on an object modelled as an association list:
replace the value when the key is present, append otherwise. -/
def setKey (l : List (String × String)) (k v : String) : List (String × String) :=
  if l.any (fun p => decide (p.1 = k)) then
    l.map (fun p => if p.1 = k then (k, v) else p)
  else l ++ [(k, v)]

/-- Key lookup in an association list (first match). -/
def getKey (l : List (String × String)) (k : String) : Option String :=
  (l.find? (fun p => decide (p.1 = k))).map Prod.snd

def hexDigits : List Char := "0123456789abcdef".data

/-- Lower-case hexadecimal rendering of one byte, two digits
(`Buffer.toString('hex')` semantics for a byte value below 256). -/
def byteToHex (b : Nat) : List Char :=
  [hexDigits.getD (b / 16) '0', hexDigits.getD (b % 16) '0']

/-- `crypto.randomBytes(64).toString('hex')`: hexadecimal rendering of a byte
sequence. -/
def bytesToHex (bs : List Nat) : String :=
  String.mk (bs.flatMap byteToHex)

/-- `path.dirname` restricted to the relative slash-separated paths template
files use. -/
def dirname (p : String) : String :=
  let parts := p.splitOn "/"
  if parts.length ≤ 1 then "." else String.intercalate "/" parts.dropLast

/-- The directory-conflict message of `execute` (colorization dropped). -/
def dirConflictMsg (pn : String) : String :=
  "We cannot create a project called " ++ pn ++ ": directory already exist.\n"

def unknownTemplateMsg (t : String) : String :=
  "Unknown template " ++ t

def unsupportedDbMsg (d : String) : String :=
  "Unsupported db type: " ++ d

/-- Modelled from the spec: `displayError` (`../utils`, not in this fragment)
prints the message and, per spec sections 4.1 and 7, every reported error is
terminal for the invocation — the pipeline does not continue after the
report.  Each error branch of `execute` therefore ends the run with the
report as its last trace entry. -/
def errorHalt (t : List Effect) (ca : CreateOptions) (o : CmdOptions)
    (msg : String) : ExecResult :=
  { trace := t ++ [Effect.displayError msg]
    createAppOptions := ca
    finalOptions := o
    env := none }

/-- The initial manifest written by `writePackageJson` before any
installation: `{ name: projectName, version: '0.0.1', private: true,
scripts: templateConfig.scripts }`. -/
def initialManifest (pn : String) (tc : TemplateConfig) : PackageJson :=
  { name := pn
    version := "0.0.1"
    isPrivate := true
    scripts := tc.scripts
    java := none }

/-- The `env` record of lines 124-129: db type, 64 random bytes rendered as
hex, project name, and the driver class optional `driverEnvVariables`. -/
def envOf (w : World) (pn : String) (d : String) (deps : List String) : Env :=
  { dbType := d
    apiSecret := bytesToHex w.randomBytes
    projectName := pn
    driverEnvVariables := deps.head?.bind w.driverEnvVariables }

/-- The two effects issued per declared template file: ensure the parent
directory and write the rendered content. -/
def perFileEffects (env : Env) (f : String × (Env → String)) : List Effect :=
  [Effect.ensureDir (dirname f.1), Effect.writeFile f.1 (f.2 env)]

/-- The effects of an optional dependency-list installation
(`if (templateConfig.dependencies) ...`). -/
def depsEffects (msg : String) : Option (List String) → List Effect
  | some deps => [Effect.logStage msg, Effect.npmInstall deps]
  | none => []

/-- Lines 120-153: build the `env` record, write every declared template
file, install the template dependencies and dev dependencies when declared,
and emit the success report. -/
def stage4 (w : World) (pn : String) (ca : CreateOptions) (tc : TemplateConfig)
    (o : CmdOptions) (d : String) (deps : List String) (t : List Effect) :
    ExecResult :=
  let env := envOf w pn d deps
  { trace := t ++ [Effect.logStage "Writing files from template"]
      ++ tc.files.flatMap (perFileEffects env)
      ++ depsEffects "Installing template dependencies" tc.dependencies
      ++ depsEffects "Installing template dev dependencies" tc.devDependencies
      ++ [Effect.event "Create App Success",
          Effect.logStage (pn ++ " app has been created")]
    createAppOptions := ca
    finalOptions := o
    env := some env }

/-- The manifest rewrite of lines 107-115: starting from the manifest read
back from disk, merge `java.dependencies` when the descriptor carries a
truthy Maven coordinate, and set the `install` script to the Maven helper. -/
def jdbcManifest (pkg : PackageJson) (desc : JdbcDesc) : PackageJson :=
  let pkg1 :=
    if strTruthy desc.mavenDependency then
      { pkg with java := some [desc.mavenDependency.getD ""] }
    else pkg
  { pkg1 with scripts := setKey pkg1.scripts "install" mavenInstallScript }

/-- Lines 99-118: when the first installed driver is the JDBC bridge, look up
the JDBC descriptor (terminal error when absent), re-read the manifest,
rewrite it (`jdbcManifest`) and re-run `npm install`. -/
def stage3 (w : World) (pn : String) (ca : CreateOptions) (tc : TemplateConfig)
    (o : CmdOptions) (d : String) (pkg : PackageJson) (deps : List String)
    (t : List Effect) : ExecResult :=
  if deps.head? = some jdbcDriverPkg then
    let t := t ++ [Effect.logStage "Installing JDBC dependencies",
                   Effect.lookupJdbcDesc d]
    match w.dbTypeDescription d with
    | none => errorHalt t ca o (unsupportedDbMsg d)
    | some desc =>
      stage4 w pn ca tc o d deps
        (t ++ [Effect.readJson "package.json",
               Effect.writePackageJson (jdbcManifest pkg desc),
               Effect.executeCommand "npm" ["install"]])
  else
    stage4 w pn ca tc o d deps t

/-- Lines 87-97: resolve the driver dependencies of the chosen db type
(terminal error on a falsy result), normalize to a list, append the Maven
helper when the first element is the JDBC bridge, and install the list. -/
def stage2 (w : World) (pn : String) (ca : CreateOptions) (tc : TemplateConfig)
    (o : CmdOptions) (d : String) (pkg : PackageJson) (t : List Effect) :
    ExecResult :=
  let t := t ++ [Effect.logStage "Installing DB driver dependencies",
                 Effect.lookupDriverDeps d]
  match w.driverDependencies d with
  | none => errorHalt t ca o (unsupportedDbMsg d)
  | some dd =>
    if ddEmpty dd then errorHalt t ca o (unsupportedDbMsg d)
    else
      let full := withMavenHelper (normalizeDeps dd)
      stage3 w pn ca tc o d pkg full (t ++ [Effect.npmInstall full])

/-- The db type every step after the prompt uses: `options.dbType` when
truthy, the prompted choice otherwise. -/
def usedDbType (w : World) (opts : CmdOptions) : String :=
  match opts.dbType with
  | some d => if d = "" then w.promptChoice w.driverKeys else d
  | none => w.promptChoice w.driverKeys

/-- Shallow embedding of `CreateCommand.execute(projectName, options)`
(lines 37-154).  The two guards report and halt (see `errorHalt`); the happy
path creates the directory, writes the initial manifest, installs the server
package, prompts for the db type when `options.dbType` is falsy (mutating
`options.dbType`, line 84), and continues through `stage2`-`stage4`. -/
def execute (w : World) (projectName : String) (options : CmdOptions) :
    ExecResult :=
  let template := effTemplate options.template
  let ca : CreateOptions :=
    { projectName := projectName, dbType := options.dbType, template := template }
  let t0 : List Effect := [Effect.event "Create App"]
  if w.pathExists projectName then
    errorHalt t0 ca options (dirConflictMsg projectName)
  else
    match w.templates template with
    | none => errorHalt t0 ca options (unknownTemplateMsg template)
    | some tc =>
      let pkg0 := initialManifest projectName tc
      let t1 := t0 ++ [Effect.ensureDir projectName, Effect.chdir projectName,
        Effect.logStage "Creating project structure",
        Effect.writePackageJson pkg0,
        Effect.logStage "Installing server dependencies",
        Effect.npmInstall ["@cubejs-backend/server"]]
      if strTruthy options.dbType then
        stage2 w projectName ca tc options (usedDbType w options) pkg0 t1
      else
        let c := w.promptChoice w.driverKeys
        stage2 w projectName ca tc { options with dbType := some c } c pkg0
          (t1 ++ [Effect.prompt w.driverKeys c])

/-- The first seven effects of every run that passes the two guards:
telemetry, directory creation, working-directory change, initial manifest
write, and server-package installation. -/
def setupTrace (pn : String) (tc : TemplateConfig) : List Effect :=
  [Effect.event "Create App", Effect.ensureDir pn, Effect.chdir pn,
   Effect.logStage "Creating project structure",
   Effect.writePackageJson (initialManifest pn tc),
   Effect.logStage "Installing server dependencies",
   Effect.npmInstall ["@cubejs-backend/server"]]

def writeProj : Effect → Option (String × String)
  | Effect.writeFile n c => some (n, c)
  | _ => none

def installProj : Effect → Option (List String)
  | Effect.npmInstall l => some l
  | _ => none

def promptProj : Effect → Option (List String × String)
  | Effect.prompt c s => some (c, s)
  | _ => none

def lookupProj : Effect → Option String
  | Effect.lookupDriverDeps d => some d
  | _ => none

def jdbcProj : Effect → Option String
  | Effect.lookupJdbcDesc d => some d
  | _ => none

def errProj : Effect → Option String
  | Effect.displayError m => some m
  | _ => none

def eventProj : Effect → Option String
  | Effect.event n => some n
  | _ => none

/-- The file writes of a trace, in order: path and content. -/
def writesOf (t : List Effect) : List (String × String) :=
  t.filterMap writeProj

/-- The package installations of a trace, in order. -/
def installsOf (t : List Effect) : List (List String) :=
  t.filterMap installProj

/-- The interactive prompts of a trace, in order: choices and selection. -/
def promptsOf (t : List Effect) : List (List String × String) :=
  t.filterMap promptProj

/-- The arguments of the driver-dependency lookups of a trace, in order. -/
def lookupsOf (t : List Effect) : List String :=
  t.filterMap lookupProj

/-- The arguments of the JDBC-descriptor lookups of a trace, in order. -/
def jdbcLookupsOf (t : List Effect) : List String :=
  t.filterMap jdbcProj

/-- The reported error messages of a trace, in order. -/
def errorsOf (t : List Effect) : List String :=
  t.filterMap errProj

/-- The telemetry event names of a trace, in order. -/
def eventsOf (t : List Effect) : List String :=
  t.filterMap eventProj

def Effect.isDirCreate : Effect → Bool
  | Effect.ensureDir _ => true
  | _ => false

def Effect.isInstallStep : Effect → Bool
  | Effect.npmInstall _ => true
  | Effect.executeCommand _ _ => true
  | _ => false

def Effect.isManifestWrite : Effect → Bool
  | Effect.writePackageJson _ => true
  | _ => false

def Effect.isFileWrite : Effect → Bool
  | Effect.writeFile _ _ => true
  | _ => false

/-! ### Concrete fixtures for witnesses and counterexamples -/

/-- A small template configuration used by the concrete witnesses. -/
def tcTest : TemplateConfig :=
  { scripts := [("dev", "node index.js")]
    files := [("index.js", fun e => "secret:" ++ e.apiSecret),
              ("schema/Orders.js", fun e => e.projectName)]
    dependencies := some ["@cubejs-backend/serverless"]
    devDependencies := none }

/-- A concrete collaborator environment used by the witnesses. -/
def wTest : World :=
  { pathExists := fun _ => false
    templates := fun t => if t = "express" then some tcTest else none
    driverKeys := ["postgres", "mysql"]
    promptChoice := fun _ => "postgres"
    driverDependencies := fun d =>
      if d = "postgres" then some (Sum.inl "@cubejs-backend/postgres-driver")
      else if d = "jdbc" then some (Sum.inl jdbcDriverPkg)
      else if d = "multi" then
        some (Sum.inr ["@cubejs-backend/postgres-driver", jdbcDriverPkg])
      else none
    dbTypeDescription := fun d =>
      if d = "jdbc" then
        some { mavenDependency := some "com.facebook.presto:presto-jdbc:0.217" }
      else none
    driverEnvVariables := fun p =>
      if p = "@cubejs-backend/postgres-driver" then some ["CUBEJS_DB_HOST"]
      else none
    randomBytes := List.replicate 64 171 }

/-- `wTest` with every path reported as already existing. -/
def wExists : World := { wTest with pathExists := fun _ => true }

/-! ### Structural lemmas about the stages -/

theorem stage4_oIrrel (w : World) (pn : String) (ca : CreateOptions)
    (tc : TemplateConfig) (o o2 : CmdOptions) (d : String) (deps : List String)
    (t : List Effect) :
    stage4 w pn ca tc o d deps t =
      { stage4 w pn ca tc o2 d deps t with finalOptions := o } := rfl

theorem stage3_oIrrel (w : World) (pn : String) (ca : CreateOptions)
    (tc : TemplateConfig) (o o2 : CmdOptions) (d : String) (pkg : PackageJson)
    (deps : List String) (t : List Effect) :
    stage3 w pn ca tc o d pkg deps t =
      { stage3 w pn ca tc o2 d pkg deps t with finalOptions := o } := by
  unfold stage3
  split
  · cases w.dbTypeDescription d <;> simp [errorHalt, stage4]
  · exact stage4_oIrrel w pn ca tc o o2 d deps t

theorem stage2_oIrrel (w : World) (pn : String) (ca : CreateOptions)
    (tc : TemplateConfig) (o o2 : CmdOptions) (d : String) (pkg : PackageJson)
    (t : List Effect) :
    stage2 w pn ca tc o d pkg t =
      { stage2 w pn ca tc o2 d pkg t with finalOptions := o } := by
  unfold stage2
  cases w.driverDependencies d with
  | none => simp [errorHalt]
  | some dd =>
    by_cases hdd : ddEmpty dd = true
    · simp [hdd, errorHalt]
    · simp only [hdd, Bool.false_eq_true, if_false]
      exact stage3_oIrrel w pn ca tc o o2 d pkg _ _

theorem stage4_ca (w : World) (pn : String) (ca : CreateOptions)
    (tc : TemplateConfig) (o : CmdOptions) (d : String) (deps : List String)
    (t : List Effect) :
    (stage4 w pn ca tc o d deps t).createAppOptions = ca := rfl

theorem stage3_ca (w : World) (pn : String) (ca : CreateOptions)
    (tc : TemplateConfig) (o : CmdOptions) (d : String) (pkg : PackageJson)
    (deps : List String) (t : List Effect) :
    (stage3 w pn ca tc o d pkg deps t).createAppOptions = ca := by
  unfold stage3
  split
  · cases w.dbTypeDescription d <;> simp [errorHalt, stage4]
  · rfl

theorem stage2_ca (w : World) (pn : String) (ca : CreateOptions)
    (tc : TemplateConfig) (o : CmdOptions) (d : String) (pkg : PackageJson)
    (t : List Effect) :
    (stage2 w pn ca tc o d pkg t).createAppOptions = ca := by
  unfold stage2
  cases w.driverDependencies d with
  | none => simp [errorHalt]
  | some dd =>
    by_cases hdd : ddEmpty dd = true
    · simp [hdd, errorHalt]
    · simp only [hdd, Bool.false_eq_true, if_false]
      exact stage3_ca w pn ca tc o d pkg _ _

theorem stage4_fo (w : World) (pn : String) (ca : CreateOptions)
    (tc : TemplateConfig) (o : CmdOptions) (d : String) (deps : List String)
    (t : List Effect) :
    (stage4 w pn ca tc o d deps t).finalOptions = o := rfl

theorem stage3_fo (w : World) (pn : String) (ca : CreateOptions)
    (tc : TemplateConfig) (o : CmdOptions) (d : String) (pkg : PackageJson)
    (deps : List String) (t : List Effect) :
    (stage3 w pn ca tc o d pkg deps t).finalOptions = o := by
  unfold stage3
  split
  · cases w.dbTypeDescription d <;> simp [errorHalt, stage4]
  · rfl

theorem stage2_fo (w : World) (pn : String) (ca : CreateOptions)
    (tc : TemplateConfig) (o : CmdOptions) (d : String) (pkg : PackageJson)
    (t : List Effect) :
    (stage2 w pn ca tc o d pkg t).finalOptions = o := by
  unfold stage2
  cases w.driverDependencies d with
  | none => simp [errorHalt]
  | some dd =>
    by_cases hdd : ddEmpty dd = true
    · simp [hdd, errorHalt]
    · simp only [hdd, Bool.false_eq_true, if_false]
      exact stage3_fo w pn ca tc o d pkg _ _

/-! ### Case-analysis lemmas -/

theorem execute_exists_trace (w : World) (pn : String) (opts : CmdOptions)
    (h : w.pathExists pn = true) :
    (execute w pn opts).trace =
      [Effect.event "Create App", Effect.displayError (dirConflictMsg pn)] := by
  simp [execute, errorHalt, h]

theorem usedDbType_falsy (w : World) (opts : CmdOptions)
    (h : strTruthy opts.dbType = false) :
    usedDbType w opts = w.promptChoice w.driverKeys := by
  unfold usedDbType
  cases hdb : opts.dbType with
  | none => rfl
  | some d =>
    rw [hdb] at h
    by_cases he : d = ""
    · simp [he]
    · simp [strTruthy, he] at h

theorem execute_split (w : World) (pn : String) (opts : CmdOptions)
    (tc : TemplateConfig)
    (hP : w.pathExists pn = false)
    (hT : w.templates (effTemplate opts.template) = some tc) :
    ∃ o2 tp,
      execute w pn opts =
        stage2 w pn
          { projectName := pn, dbType := opts.dbType,
            template := effTemplate opts.template }
          tc o2 (usedDbType w opts) (initialManifest pn tc)
          (setupTrace pn tc ++ tp) ∧
      (strTruthy opts.dbType = true → tp = [] ∧ o2 = opts) ∧
      (strTruthy opts.dbType = false →
        tp = [Effect.prompt w.driverKeys (w.promptChoice w.driverKeys)] ∧
        o2 = { opts with dbType := some (w.promptChoice w.driverKeys) }) := by
  by_cases hdb : strTruthy opts.dbType = true
  · refine ⟨opts, [], ?_, fun _ => ⟨rfl, rfl⟩, fun hc => by simp [hc] at hdb⟩
    simp only [execute, hP, Bool.false_eq_true, if_false, hT, hdb, if_true]
    simp [setupTrace]
  · have hdb' : strTruthy opts.dbType = false := by simpa using hdb
    refine ⟨{ opts with dbType := some (w.promptChoice w.driverKeys) },
      [Effect.prompt w.driverKeys (w.promptChoice w.driverKeys)], ?_,
      fun hc => absurd hc hdb, fun _ => ⟨rfl, rfl⟩⟩
    simp only [execute, hP, Bool.false_eq_true, if_false, hT, hdb']
    rw [usedDbType_falsy w opts hdb']
    simp [setupTrace]

theorem stage3_split (w : World) (pn : String) (ca : CreateOptions)
    (tc : TemplateConfig) (o : CmdOptions) (d : String) (pkg : PackageJson)
    (deps : List String) (t : List Effect) :
    (deps.head? = some jdbcDriverPkg ∧ w.dbTypeDescription d = none ∧
      stage3 w pn ca tc o d pkg deps t =
        errorHalt (t ++ [Effect.logStage "Installing JDBC dependencies",
                         Effect.lookupJdbcDesc d]) ca o (unsupportedDbMsg d)) ∨
    (∃ desc, deps.head? = some jdbcDriverPkg ∧
      w.dbTypeDescription d = some desc ∧
      stage3 w pn ca tc o d pkg deps t =
        stage4 w pn ca tc o d deps
          (t ++ [Effect.logStage "Installing JDBC dependencies",
                 Effect.lookupJdbcDesc d,
                 Effect.readJson "package.json",
                 Effect.writePackageJson (jdbcManifest pkg desc),
                 Effect.executeCommand "npm" ["install"]])) ∨
    ((deps.head? = some jdbcDriverPkg → False) ∧
      stage3 w pn ca tc o d pkg deps t = stage4 w pn ca tc o d deps t) := by
  by_cases hj : deps.head? = some jdbcDriverPkg
  · cases hd : w.dbTypeDescription d with
    | none => exact Or.inl ⟨hj, rfl, by simp [stage3, hj, hd]⟩
    | some desc =>
      refine Or.inr (Or.inl ⟨desc, hj, rfl, ?_⟩)
      simp [stage3, hj, hd, List.append_assoc]
  · exact Or.inr (Or.inr ⟨fun hc => hj hc, by simp [stage3, hj]⟩)

theorem stage2_split (w : World) (pn : String) (ca : CreateOptions)
    (tc : TemplateConfig) (o : CmdOptions) (d : String) (pkg : PackageJson)
    (t : List Effect) :
    (ddTruthy (w.driverDependencies d) = false ∧
      stage2 w pn ca tc o d pkg t =
        errorHalt (t ++ [Effect.logStage "Installing DB driver dependencies",
                         Effect.lookupDriverDeps d]) ca o (unsupportedDbMsg d)) ∨
    (∃ dd, w.driverDependencies d = some dd ∧ ddEmpty dd = false ∧
      stage2 w pn ca tc o d pkg t =
        stage3 w pn ca tc o d pkg (withMavenHelper (normalizeDeps dd))
          (t ++ [Effect.logStage "Installing DB driver dependencies",
                 Effect.lookupDriverDeps d,
                 Effect.npmInstall (withMavenHelper (normalizeDeps dd))])) := by
  cases hdd : w.driverDependencies d with
  | none => exact Or.inl ⟨by simp [ddTruthy, hdd], by simp [stage2, hdd]⟩
  | some dd =>
    by_cases he : ddEmpty dd = true
    · exact Or.inl ⟨by simp [ddTruthy, hdd, he], by simp [stage2, hdd, he]⟩
    · have he' : ddEmpty dd = false := by simpa using he
      refine Or.inr ⟨dd, rfl, he', ?_⟩
      simp only [stage2, hdd, he', Bool.false_eq_true, if_false]
      simp [withMavenHelper, List.append_assoc]

/-! ### Projection computations -/

theorem writeProj_perFiles (env : Env) (files : List (String × (Env → String))) :
    (files.flatMap (perFileEffects env)).filterMap writeProj =
      files.map fun f => (f.1, f.2 env) := by
  induction files with
  | nil => rfl
  | cons f fs ih =>
    simp [List.flatMap_cons, List.filterMap_append, perFileEffects, writeProj, ih]

theorem installProj_perFiles (env : Env)
    (files : List (String × (Env → String))) :
    (files.flatMap (perFileEffects env)).filterMap installProj = [] := by
  induction files with
  | nil => rfl
  | cons f fs ih =>
    simp [List.flatMap_cons, List.filterMap_append, perFileEffects, installProj, ih]

theorem promptProj_perFiles (env : Env)
    (files : List (String × (Env → String))) :
    (files.flatMap (perFileEffects env)).filterMap promptProj = [] := by
  induction files with
  | nil => rfl
  | cons f fs ih =>
    simp [List.flatMap_cons, List.filterMap_append, perFileEffects, promptProj, ih]

theorem lookupProj_perFiles (env : Env)
    (files : List (String × (Env → String))) :
    (files.flatMap (perFileEffects env)).filterMap lookupProj = [] := by
  induction files with
  | nil => rfl
  | cons f fs ih =>
    simp [List.flatMap_cons, List.filterMap_append, perFileEffects, lookupProj, ih]

theorem jdbcProj_perFiles (env : Env)
    (files : List (String × (Env → String))) :
    (files.flatMap (perFileEffects env)).filterMap jdbcProj = [] := by
  induction files with
  | nil => rfl
  | cons f fs ih =>
    simp [List.flatMap_cons, List.filterMap_append, perFileEffects, jdbcProj, ih]

theorem errProj_perFiles (env : Env)
    (files : List (String × (Env → String))) :
    (files.flatMap (perFileEffects env)).filterMap errProj = [] := by
  induction files with
  | nil => rfl
  | cons f fs ih =>
    simp [List.flatMap_cons, List.filterMap_append, perFileEffects, errProj, ih]

theorem eventProj_perFiles (env : Env)
    (files : List (String × (Env → String))) :
    (files.flatMap (perFileEffects env)).filterMap eventProj = [] := by
  induction files with
  | nil => rfl
  | cons f fs ih =>
    simp [List.flatMap_cons, List.filterMap_append, perFileEffects, eventProj, ih]

theorem writeProj_deps (m : String) (o : Option (List String)) :
    (depsEffects m o).filterMap writeProj = [] := by
  cases o <;> simp [depsEffects, writeProj]

theorem installProj_deps (m : String) (o : Option (List String)) :
    (depsEffects m o).filterMap installProj = o.toList := by
  cases o <;> simp [depsEffects, installProj]

theorem promptProj_deps (m : String) (o : Option (List String)) :
    (depsEffects m o).filterMap promptProj = [] := by
  cases o <;> simp [depsEffects, promptProj]

theorem lookupProj_deps (m : String) (o : Option (List String)) :
    (depsEffects m o).filterMap lookupProj = [] := by
  cases o <;> simp [depsEffects, lookupProj]

theorem jdbcProj_deps (m : String) (o : Option (List String)) :
    (depsEffects m o).filterMap jdbcProj = [] := by
  cases o <;> simp [depsEffects, jdbcProj]

theorem errProj_deps (m : String) (o : Option (List String)) :
    (depsEffects m o).filterMap errProj = [] := by
  cases o <;> simp [depsEffects, errProj]

theorem eventProj_deps (m : String) (o : Option (List String)) :
    (depsEffects m o).filterMap eventProj = [] := by
  cases o <;> simp [depsEffects, eventProj]

/-! ### Stage-level projection lemmas -/

theorem withMavenHelper_head (n : List String) :
    (withMavenHelper n).head? = some jdbcDriverPkg ↔
      n.head? = some jdbcDriverPkg := by
  cases n with
  | nil => simp [withMavenHelper]
  | cons a l => by_cases h : a = jdbcDriverPkg <;> simp [withMavenHelper, h]

theorem stage2_prompts_eq (w : World) (pn : String) (ca : CreateOptions)
    (tc : TemplateConfig) (o : CmdOptions) (d : String) (pkg : PackageJson)
    (t : List Effect) :
    promptsOf (stage2 w pn ca tc o d pkg t).trace = promptsOf t := by
  rcases stage2_split w pn ca tc o d pkg t with ⟨_, h⟩ | ⟨dd, hdd, hne, h⟩
  · rw [h]
    simp [errorHalt, promptsOf, List.filterMap_append, promptProj]
  · rw [h]
    rcases stage3_split w pn ca tc o d pkg (withMavenHelper (normalizeDeps dd))
        (t ++ [Effect.logStage "Installing DB driver dependencies",
               Effect.lookupDriverDeps d,
               Effect.npmInstall (withMavenHelper (normalizeDeps dd))])
      with ⟨_, _, h3⟩ | ⟨desc, _, _, h3⟩ | ⟨_, h3⟩ <;> rw [h3] <;>
      simp [errorHalt, stage4, promptsOf, List.filterMap_append, promptProj,
        promptProj_perFiles, promptProj_deps]

theorem stage2_lookups_eq (w : World) (pn : String) (ca : CreateOptions)
    (tc : TemplateConfig) (o : CmdOptions) (d : String) (pkg : PackageJson)
    (t : List Effect) :
    lookupsOf (stage2 w pn ca tc o d pkg t).trace = lookupsOf t ++ [d] := by
  rcases stage2_split w pn ca tc o d pkg t with ⟨_, h⟩ | ⟨dd, hdd, hne, h⟩
  · rw [h]
    simp [errorHalt, lookupsOf, List.filterMap_append, lookupProj]
  · rw [h]
    rcases stage3_split w pn ca tc o d pkg (withMavenHelper (normalizeDeps dd))
        (t ++ [Effect.logStage "Installing DB driver dependencies",
               Effect.lookupDriverDeps d,
               Effect.npmInstall (withMavenHelper (normalizeDeps dd))])
      with ⟨_, _, h3⟩ | ⟨desc, _, _, h3⟩ | ⟨_, h3⟩ <;> rw [h3] <;>
      simp [errorHalt, stage4, lookupsOf, List.filterMap_append, lookupProj,
        lookupProj_perFiles, lookupProj_deps]

theorem stage2_jdbc_eq (w : World) (pn : String) (ca : CreateOptions)
    (tc : TemplateConfig) (o : CmdOptions) (d : String) (pkg : PackageJson)
    (t : List Effect) (dd : String ⊕ List String)
    (hdd : w.driverDependencies d = some dd) (hne : ddEmpty dd = false) :
    jdbcLookupsOf (stage2 w pn ca tc o d pkg t).trace =
      jdbcLookupsOf t ++
        (if (normalizeDeps dd).head? = some jdbcDriverPkg then [d] else []) := by
  rcases stage2_split w pn ca tc o d pkg t with ⟨hf, h⟩ | ⟨dd2, hdd2, hne2, h⟩
  · rw [hdd] at hf
    simp [ddTruthy, hne] at hf
  · rw [hdd] at hdd2
    cases hdd2
    rw [h]
    rcases stage3_split w pn ca tc o d pkg (withMavenHelper (normalizeDeps dd))
        (t ++ [Effect.logStage "Installing DB driver dependencies",
               Effect.lookupDriverDeps d,
               Effect.npmInstall (withMavenHelper (normalizeDeps dd))])
      with ⟨hj, _, h3⟩ | ⟨desc, hj, _, h3⟩ | ⟨hj, h3⟩ <;> rw [h3]
    · rw [withMavenHelper_head] at hj
      simp [errorHalt, jdbcLookupsOf, List.filterMap_append, jdbcProj, hj]
    · rw [withMavenHelper_head] at hj
      simp [stage4, jdbcLookupsOf, List.filterMap_append, jdbcProj,
        jdbcProj_perFiles, jdbcProj_deps, hj]
    · have hj' : ¬ (normalizeDeps dd).head? = some jdbcDriverPkg := by
        intro hc
        exact hj ((withMavenHelper_head (normalizeDeps dd)).2 hc)
      simp [stage4, jdbcLookupsOf, List.filterMap_append, jdbcProj,
        jdbcProj_perFiles, jdbcProj_deps, hj']

theorem stage2_installs_eq (w : World) (pn : String) (ca : CreateOptions)
    (tc : TemplateConfig) (o : CmdOptions) (d : String) (pkg : PackageJson)
    (t : List Effect) (dd : String ⊕ List String)
    (hdd : w.driverDependencies d = some dd) (hne : ddEmpty dd = false) :
    ∃ rest, installsOf (stage2 w pn ca tc o d pkg t).trace =
      installsOf t ++ withMavenHelper (normalizeDeps dd) :: rest := by
  rcases stage2_split w pn ca tc o d pkg t with ⟨hf, h⟩ | ⟨dd2, hdd2, hne2, h⟩
  · rw [hdd] at hf
    simp [ddTruthy, hne] at hf
  · rw [hdd] at hdd2
    cases hdd2
    rw [h]
    rcases stage3_split w pn ca tc o d pkg (withMavenHelper (normalizeDeps dd))
        (t ++ [Effect.logStage "Installing DB driver dependencies",
               Effect.lookupDriverDeps d,
               Effect.npmInstall (withMavenHelper (normalizeDeps dd))])
      with ⟨hj, _, h3⟩ | ⟨desc, hj, _, h3⟩ | ⟨hj, h3⟩ <;> rw [h3]
    · exact ⟨[], by simp [errorHalt, installsOf, List.filterMap_append, installProj]⟩
    · refine ⟨tc.dependencies.toList ++ tc.devDependencies.toList, ?_⟩
      simp [stage4, installsOf, List.filterMap_append, installProj,
        installProj_perFiles, installProj_deps]
    · refine ⟨tc.dependencies.toList ++ tc.devDependencies.toList, ?_⟩
      simp [stage4, installsOf, List.filterMap_append, installProj,
        installProj_perFiles, installProj_deps]

theorem stage2_success (w : World) (pn : String) (ca : CreateOptions)
    (tc : TemplateConfig) (o : CmdOptions) (d : String) (pkg : PackageJson)
    (t : List Effect)
    (hE : errorsOf (stage2 w pn ca tc o d pkg t).trace = []) :
    ∃ deps t2, stage2 w pn ca tc o d pkg t = stage4 w pn ca tc o d deps t2 ∧
      writesOf t2 = writesOf t := by
  rcases stage2_split w pn ca tc o d pkg t with ⟨_, h⟩ | ⟨dd, hdd, hne, h⟩
  · rw [h] at hE
    simp [errorHalt, errorsOf, List.filterMap_append, errProj] at hE
  · rw [h] at hE ⊢
    rcases stage3_split w pn ca tc o d pkg (withMavenHelper (normalizeDeps dd))
        (t ++ [Effect.logStage "Installing DB driver dependencies",
               Effect.lookupDriverDeps d,
               Effect.npmInstall (withMavenHelper (normalizeDeps dd))])
      with ⟨_, _, h3⟩ | ⟨desc, _, _, h3⟩ | ⟨_, h3⟩
    · rw [h3] at hE
      simp [errorHalt, errorsOf, List.filterMap_append, errProj] at hE
    · refine ⟨_, _, h3, ?_⟩
      simp [writesOf, List.filterMap_append, writeProj]
    · refine ⟨_, _, h3, ?_⟩
      simp [writesOf, List.filterMap_append, writeProj]

theorem stage2_env_db (w : World) (pn : String) (ca : CreateOptions)
    (tc : TemplateConfig) (o : CmdOptions) (d : String) (pkg : PackageJson)
    (t : List Effect) (e : Env)
    (he : (stage2 w pn ca tc o d pkg t).env = some e) : e.dbType = d := by
  rcases stage2_split w pn ca tc o d pkg t with ⟨_, h⟩ | ⟨dd, hdd, hne, h⟩
  · rw [h] at he
    simp [errorHalt] at he
  · rw [h] at he
    rcases stage3_split w pn ca tc o d pkg (withMavenHelper (normalizeDeps dd))
        (t ++ [Effect.logStage "Installing DB driver dependencies",
               Effect.lookupDriverDeps d,
               Effect.npmInstall (withMavenHelper (normalizeDeps dd))])
      with ⟨_, _, h3⟩ | ⟨desc, _, _, h3⟩ | ⟨_, h3⟩ <;> rw [h3] at he
    · simp [errorHalt] at he
    · simp only [stage4, Option.some.injEq] at he
      rw [← he]
      rfl
    · simp only [stage4, Option.some.injEq] at he
      rw [← he]
      rfl

theorem stage2_trace_ext (w : World) (pn : String) (ca : CreateOptions)
    (tc : TemplateConfig) (o : CmdOptions) (d : String) (pkg : PackageJson)
    (t : List Effect) :
    ∃ s, (stage2 w pn ca tc o d pkg t).trace = t ++ s := by
  rcases stage2_split w pn ca tc o d pkg t with ⟨_, h⟩ | ⟨dd, hdd, hne, h⟩
  · rw [h]
    exact ⟨_, by simp [errorHalt]; rfl⟩
  · rw [h]
    rcases stage3_split w pn ca tc o d pkg (withMavenHelper (normalizeDeps dd))
        (t ++ [Effect.logStage "Installing DB driver dependencies",
               Effect.lookupDriverDeps d,
               Effect.npmInstall (withMavenHelper (normalizeDeps dd))])
      with ⟨_, _, h3⟩ | ⟨desc, _, _, h3⟩ | ⟨_, h3⟩ <;> rw [h3]
    · exact ⟨_, by simp [errorHalt]; rfl⟩
    · exact ⟨_, by simp [stage4, List.append_assoc]; rfl⟩
    · exact ⟨_, by simp [stage4, List.append_assoc]; rfl⟩

/-! ### Association-list and hexadecimal lemmas -/

theorem setKey_cons_ne (p : String × String) (l : List (String × String))
    (k v : String) (hp : (p.1 = k) → False) :
    setKey (p :: l) k v = p :: setKey l k v := by
  by_cases ha : l.any (fun q => decide (q.1 = k)) = true
  · simp [setKey, hp, ha]
    exact fun hc => absurd hc hp
  · simp [setKey, hp, ha]
    exact fun hc => absurd hc hp

theorem getKey_cons_ne (p : String × String) (l : List (String × String))
    (k : String) (hp : (p.1 = k) → False) :
    getKey (p :: l) k = getKey l k := by
  have hd : decide (p.1 = k) = false := decide_eq_false hp
  simp [getKey, List.find?, hd]

theorem getKey_setKey (l : List (String × String)) (k v : String) :
    getKey (setKey l k v) k = some v := by
  induction l with
  | nil => simp [getKey, setKey, List.find?]
  | cons p ps ih =>
    by_cases hp : p.1 = k
    · have hs : setKey (p :: ps) k v =
          (k, v) :: ps.map (fun q => if q.1 = k then (k, v) else q) := by
        simp [setKey, hp]
      rw [hs]
      simp [getKey, List.find?]
    · rw [setKey_cons_ne p ps k v hp, getKey_cons_ne p _ k hp]
      exact ih

theorem flatMap_byteToHex_length (bs : List Nat) :
    (bs.flatMap byteToHex).length = 2 * bs.length := by
  induction bs with
  | nil => rfl
  | cons b bs ih =>
    simp only [List.flatMap_cons, List.length_append, ih, byteToHex,
      List.length_cons, List.length_nil]
    omega

theorem bytesToHex_length (bs : List Nat) :
    (bytesToHex bs).length = 2 * bs.length :=
  flatMap_byteToHex_length bs

theorem hexDigits_getD_mem (i : Nat) : hexDigits.getD i '0' ∈ hexDigits := by
  by_cases h : i < 16
  · interval_cases i <;> decide
  · rw [List.getD_eq_default]
    · decide
    · have hlen : hexDigits.length = 16 := by decide
      rw [hlen]
      omega

theorem bytesToHex_mem (bs : List Nat) (c : Char)
    (hc : c ∈ (bytesToHex bs).data) : c ∈ hexDigits := by
  have hc2 : c ∈ bs.flatMap byteToHex := hc
  rw [List.mem_flatMap] at hc2
  obtain ⟨b, _, hcb⟩ := hc2
  simp only [byteToHex, List.mem_cons, List.not_mem_nil, or_false] at hcb
  rcases hcb with rfl | rfl <;> exact hexDigits_getD_mem _

/-! ### Claims -/

/-- C1: when a directory (or file) named `projectName` already exists,
`execute` reports the directory-conflict error and performs no further side
effects: the trace is exactly the telemetry event followed by the report, and
contains no directory creation, no installation, no manifest write and no
template file write. -/
theorem existing_directory_halts (w : World) (pn : String) (opts : CmdOptions)
    (h : w.pathExists pn = true) :
    (execute w pn opts).trace =
      [Effect.event "Create App", Effect.displayError (dirConflictMsg pn)] ∧
    ∀ e ∈ (execute w pn opts).trace,
      Effect.isDirCreate e = false ∧ Effect.isInstallStep e = false ∧
      Effect.isManifestWrite e = false ∧ Effect.isFileWrite e = false := by
  have ht : (execute w pn opts).trace =
      [Effect.event "Create App", Effect.displayError (dirConflictMsg pn)] := by
    simp [execute, errorHalt, h]
  refine ⟨ht, ?_⟩
  intro e he
  rw [ht] at he
  simp only [List.mem_cons, List.not_mem_nil, or_false] at he
  rcases he with rfl | rfl
  · exact ⟨rfl, rfl, rfl, rfl⟩
  · exact ⟨rfl, rfl, rfl, rfl⟩

/-- Witness for C1 at a concrete input. -/
theorem existing_directory_halts_witness :
    wExists.pathExists "hello-world" = true ∧
    (execute wExists "hello-world"
        { template := none, dbType := some "postgres" }).trace =
      [Effect.event "Create App",
       Effect.displayError (dirConflictMsg "hello-world")] :=
  ⟨rfl, (existing_directory_halts wExists "hello-world"
    { template := none, dbType := some "postgres" } rfl).1⟩

/-- C10: an empty-string `options.template` is treated exactly like an absent
one: the trace, the `Env` record and the `createAppOptions` record coincide
with those of the run with the field absent, and the effective template key
is the default "express" (rather than the unknown-template error path). -/
theorem empty_template_defaults (w : World) (pn : String) (db : Option String) :
    (execute w pn { template := some "", dbType := db }).trace =
      (execute w pn { template := none, dbType := db }).trace ∧
    (execute w pn { template := some "", dbType := db }).env =
      (execute w pn { template := none, dbType := db }).env ∧
    (execute w pn { template := some "", dbType := db }).createAppOptions =
      (execute w pn { template := none, dbType := db }).createAppOptions ∧
    (execute w pn
        { template := some "", dbType := db }).createAppOptions.template =
      "express" := by
  have key : execute w pn { template := some "", dbType := db } =
      { execute w pn { template := none, dbType := db } with
        finalOptions :=
          (execute w pn { template := some "", dbType := db }).finalOptions } := by
    by_cases hpe : w.pathExists pn = true
    · simp [execute, effTemplate, errorHalt, hpe]
    · have hpe' : w.pathExists pn = false := by simpa using hpe
      cases htm : w.templates "express" with
      | none => simp [execute, effTemplate, errorHalt, hpe', htm]
      | some tc =>
        by_cases hdb : strTruthy db = true
        · simp only [execute, effTemplate, hpe', Bool.false_eq_true, if_false,
            htm, hdb, if_true]
          rw [stage2_fo]
          exact stage2_oIrrel w pn _ tc _ _ _ _ _
        · simp only [execute, effTemplate, hpe', Bool.false_eq_true, if_false,
            if_true, htm, hdb]
          rw [stage2_fo]
          exact stage2_oIrrel w pn _ tc _ _ _ _ _
  refine ⟨?_, ?_, ?_, ?_⟩
  · rw [key]
  · rw [key]
  · rw [key]
  · rw [key]
    by_cases hpe : w.pathExists pn = true
    · simp [execute, effTemplate, errorHalt, hpe]
    · have hpe' : w.pathExists pn = false := by simpa using hpe
      cases htm : w.templates "express" with
      | none => simp [execute, effTemplate, errorHalt, hpe', htm]
      | some tc =>
        by_cases hdb : strTruthy db = true
        · simp only [execute, effTemplate, hpe', Bool.false_eq_true, if_false,
            htm, hdb, if_true]
          rw [stage2_ca]
        · simp only [execute, effTemplate, hpe', Bool.false_eq_true, if_false,
            if_true, htm, hdb]
          rw [stage2_ca]

/-- C8 counterexample: with `dbType` absent, line 84
(`options.dbType = prompt.dbType`) mutates the `options` argument after the
interactive prompt, so the options record does not keep its construction-time
field values. -/
theorem options_mutation_counterexample :
    (execute wTest "hello-world"
        { template := none, dbType := none }).finalOptions ≠
      { template := none, dbType := none } ∧
    (execute wTest "hello-world"
        { template := none, dbType := none }).finalOptions.dbType =
      some "postgres" := by
  have h1 : (execute wTest "hello-world"
      { template := none, dbType := none }).finalOptions.dbType =
      some "postgres" := rfl
  refine ⟨?_, h1⟩
  intro hcontra
  rw [hcontra] at h1
  simp at h1

/-- C8 amended: the `createAppOptions` record is built exactly once from the
construction-time inputs and is never mutated afterwards (its `dbType` is
still the original `options.dbType` at the end of every run); the `options`
argument, however, has its `dbType` field reassigned to the prompted choice
when it was falsy, and is left untouched exactly when it was truthy. -/
theorem create_options_amended (w : World) (pn : String) (opts : CmdOptions) :
    (execute w pn opts).createAppOptions =
      { projectName := pn, dbType := opts.dbType,
        template := effTemplate opts.template } ∧
    (strTruthy opts.dbType = true → (execute w pn opts).finalOptions = opts) := by
  constructor
  · by_cases hpe : w.pathExists pn = true
    · simp [execute, effTemplate, errorHalt, hpe]
    · have hpe' : w.pathExists pn = false := by simpa using hpe
      cases htm : w.templates (effTemplate opts.template) with
      | none => simp [execute, errorHalt, hpe', htm]
      | some tc =>
        by_cases hdb : strTruthy opts.dbType = true
        · simp only [execute, hpe', Bool.false_eq_true, if_false, htm, hdb,
            if_true]
          rw [stage2_ca]
        · simp only [execute, hpe', Bool.false_eq_true, if_false, htm, hdb]
          rw [stage2_ca]
  · intro hdb
    by_cases hpe : w.pathExists pn = true
    · simp [execute, effTemplate, errorHalt, hpe]
    · have hpe' : w.pathExists pn = false := by simpa using hpe
      cases htm : w.templates (effTemplate opts.template) with
      | none => simp [execute, errorHalt, hpe', htm]
      | some tc =>
        simp only [execute, hpe', Bool.false_eq_true, if_false, htm, hdb,
          if_true]
        rw [stage2_fo]

/-- Witness for C8 amended at a concrete input. -/
theorem create_options_amended_witness :
    (execute wTest "hello-world"
        { template := none, dbType := some "postgres" }).finalOptions =
      { template := none, dbType := some "postgres" } :=
  (create_options_amended wTest "hello-world"
    { template := none, dbType := some "postgres" }).2 rfl

/-- C2 counterexample: with the project directory already existing and an
unknown template, the run reports only the directory conflict; the
unknown-template error is never reported, so the claim fails on this
invocation. -/
theorem unknown_template_counterexample :
    (execute wExists "hello-world"
        { template := some "nosuch", dbType := some "postgres" }).trace =
      [Effect.event "Create App",
       Effect.displayError (dirConflictMsg "hello-world")] ∧
    Effect.displayError (unknownTemplateMsg "nosuch") ∉
      (execute wExists "hello-world"
        { template := some "nosuch", dbType := some "postgres" }).trace := by
  decide

/-- C2 amended: with an unknown effective template key, no directory is ever
created; and provided no directory named `projectName` already exists, the
unknown-template error is reported and the trace is exactly the telemetry
event followed by that report, so the report strictly precedes any directory
creation. -/
theorem unknown_template_amended (w : World) (pn : String) (opts : CmdOptions)
    (hU : w.templates (effTemplate opts.template) = none) :
    (∀ e ∈ (execute w pn opts).trace, Effect.isDirCreate e = false) ∧
    (w.pathExists pn = false →
      (execute w pn opts).trace =
        [Effect.event "Create App",
         Effect.displayError (unknownTemplateMsg (effTemplate opts.template))]) := by
  have hun : w.pathExists pn = false →
      (execute w pn opts).trace =
        [Effect.event "Create App",
         Effect.displayError (unknownTemplateMsg (effTemplate opts.template))] := by
    intro hp
    simp [execute, errorHalt, hp, hU]
  refine ⟨?_, hun⟩
  intro e he
  by_cases hp : w.pathExists pn = true
  · rw [execute_exists_trace w pn opts hp] at he
    simp only [List.mem_cons, List.not_mem_nil, or_false] at he
    rcases he with rfl | rfl <;> rfl
  · rw [hun (by simpa using hp)] at he
    simp only [List.mem_cons, List.not_mem_nil, or_false] at he
    rcases he with rfl | rfl <;> rfl

/-- Witness for C2 amended at a concrete input. -/
theorem unknown_template_amended_witness :
    (execute wTest "hello-world"
        { template := some "nosuch", dbType := some "postgres" }).trace =
      [Effect.event "Create App",
       Effect.displayError (unknownTemplateMsg "nosuch")] :=
  (unknown_template_amended wTest "hello-world"
    { template := some "nosuch", dbType := some "postgres" } rfl).2 rfl

/-- C3: when the driver-dependency lookup for the chosen database type yields
no result (a falsy value), `execute` reports the unsupported-database-type
error and the error is terminal: the report is the last trace entry, it is
the only reported error, and no driver installation (the only installation
is the earlier server package), no JDBC handling, no file rendering, no
template-dependency installation and no success report occurs after it. -/
theorem unsupported_db_terminal (w : World) (pn : String) (opts : CmdOptions)
    (tc : TemplateConfig)
    (hP : w.pathExists pn = false)
    (hT : w.templates (effTemplate opts.template) = some tc)
    (hD : ddTruthy (w.driverDependencies (usedDbType w opts)) = false) :
    (execute w pn opts).trace.getLast? =
      some (Effect.displayError (unsupportedDbMsg (usedDbType w opts))) ∧
    errorsOf (execute w pn opts).trace =
      [unsupportedDbMsg (usedDbType w opts)] ∧
    installsOf (execute w pn opts).trace = [["@cubejs-backend/server"]] ∧
    writesOf (execute w pn opts).trace = [] ∧
    jdbcLookupsOf (execute w pn opts).trace = [] ∧
    eventsOf (execute w pn opts).trace = ["Create App"] ∧
    (execute w pn opts).env = none := by
  obtain ⟨o2, tp, hex, htp1, htp2⟩ := execute_split w pn opts tc hP hT
  have htp : tp = [] ∨
      tp = [Effect.prompt w.driverKeys (w.promptChoice w.driverKeys)] := by
    by_cases hdb : strTruthy opts.dbType = true
    · exact Or.inl (htp1 hdb).1
    · exact Or.inr (htp2 (by simpa using hdb)).1
  rcases stage2_split w pn
      { projectName := pn, dbType := opts.dbType,
        template := effTemplate opts.template }
      tc o2 (usedDbType w opts) (initialManifest pn tc) (setupTrace pn tc ++ tp)
    with ⟨_, h⟩ | ⟨dd, hdd, hne, h⟩
  · have htr := hex.trans h
    refine ⟨?_, ?_, ?_, ?_, ?_, ?_, ?_⟩
    · rw [htr]
      simp only [errorHalt]
      exact List.getLast?_concat _
    all_goals
      rw [htr]
      rcases htp with rfl | rfl <;>
        simp [errorHalt, setupTrace, errorsOf, installsOf, writesOf,
          jdbcLookupsOf, eventsOf, List.filterMap_append, errProj, installProj,
          writeProj, jdbcProj, eventProj, promptProj]
  · rw [hdd] at hD
    simp [ddTruthy, hne] at hD

/-- Witness for C3 at a concrete input. -/
theorem unsupported_db_terminal_witness :
    errorsOf (execute wTest "hello-world"
        { template := none, dbType := some "sqlite" }).trace =
      [unsupportedDbMsg "sqlite"] :=
  (unsupported_db_terminal wTest "hello-world"
    { template := none, dbType := some "sqlite" } tcTest rfl rfl rfl).2.1

/-- C4 counterexample: with `dbType` absent but the project directory already
existing, the run halts at the directory conflict and no prompt is issued,
contradicting the claimed exactly-one prompt for every invocation with
absent `dbType`. -/
theorem prompt_counterexample :
    promptsOf (execute wExists "hello-world"
        { template := none, dbType := none }).trace = [] ∧
    (execute wExists "hello-world"
        { template := none, dbType := none }).trace =
      [Effect.event "Create App",
       Effect.displayError (dirConflictMsg "hello-world")] :=
  ⟨rfl, rfl⟩

/-- C4 amended: provided the run passes the directory and template guards,
when `options.dbType` is falsy the pipeline issues exactly one list prompt
whose choices are exactly the driver-registry keys, and the selected key is
the argument of every driver-dependency lookup, of every JDBC-descriptor
lookup, and the `dbType` of the Environment record when one is built; when
`options.dbType` is supplied non-empty, no prompt is issued. -/
theorem prompt_amended (w : World) (pn : String) (opts : CmdOptions)
    (tc : TemplateConfig)
    (hP : w.pathExists pn = false)
    (hT : w.templates (effTemplate opts.template) = some tc) :
    (strTruthy opts.dbType = false →
      promptsOf (execute w pn opts).trace =
        [(w.driverKeys, w.promptChoice w.driverKeys)] ∧
      lookupsOf (execute w pn opts).trace = [w.promptChoice w.driverKeys] ∧
      (∀ x ∈ jdbcLookupsOf (execute w pn opts).trace,
        x = w.promptChoice w.driverKeys) ∧
      (∀ e, (execute w pn opts).env = some e →
        e.dbType = w.promptChoice w.driverKeys)) ∧
    (strTruthy opts.dbType = true →
      promptsOf (execute w pn opts).trace = []) := by
  obtain ⟨o2, tp, hex, htp1, htp2⟩ := execute_split w pn opts tc hP hT
  constructor
  · intro hdb
    obtain ⟨htp, _⟩ := htp2 hdb
    have hd := usedDbType_falsy w opts hdb
    refine ⟨?_, ?_, ?_, ?_⟩
    · rw [hex, stage2_prompts_eq, htp]
      simp [setupTrace, promptsOf, List.filterMap_append, promptProj]
    · rw [hex, stage2_lookups_eq, hd, htp]
      simp [setupTrace, lookupsOf, List.filterMap_append, lookupProj,
        promptProj]
    · intro x hx
      rw [hex] at hx
      rcases stage2_split w pn
          { projectName := pn, dbType := opts.dbType,
            template := effTemplate opts.template }
          tc o2 (usedDbType w opts) (initialManifest pn tc)
          (setupTrace pn tc ++ tp)
        with ⟨_, h⟩ | ⟨dd, hdd, hne, h⟩
      · rw [h, htp] at hx
        simp [errorHalt, setupTrace, jdbcLookupsOf, List.filterMap_append,
          jdbcProj] at hx
      · rw [stage2_jdbc_eq w pn _ tc o2 _ _ _ dd hdd hne, htp] at hx
        by_cases hj : (normalizeDeps dd).head? = some jdbcDriverPkg
        · simp [setupTrace, jdbcLookupsOf, List.filterMap_append, jdbcProj,
            hj] at hx
          rw [hx]
          exact hd
        · simp [setupTrace, jdbcLookupsOf, List.filterMap_append, jdbcProj,
            hj] at hx
    · intro e he
      rw [hex] at he
      have hdb2 := stage2_env_db w pn
        { projectName := pn, dbType := opts.dbType,
          template := effTemplate opts.template }
        tc o2 (usedDbType w opts) (initialManifest pn tc)
        (setupTrace pn tc ++ tp) e he
      rw [hdb2]
      exact hd
  · intro hdb
    obtain ⟨htp, _⟩ := htp1 hdb
    rw [hex, stage2_prompts_eq, htp]
    simp [setupTrace, promptsOf, List.filterMap_append, promptProj]

/-- Witness for C4 amended at a concrete input. -/
theorem prompt_amended_witness :
    promptsOf (execute wTest "hello-world"
        { template := none, dbType := none }).trace =
      [(["postgres", "mysql"], "postgres")] :=
  ((prompt_amended wTest "hello-world" { template := none, dbType := none }
    tcTest rfl rfl).1 rfl).1

/-- C5: when the resolved driver list starts with the JDBC bridge driver and
the JDBC descriptor of the chosen type exists, the Maven helper package is
appended to the installed driver list, the rewritten manifest is written
immediately before `npm install` is re-run, that manifest carries an
`install` script equal to the Maven helper invocation path, and it carries a
`java.dependencies` field equal to the descriptor Maven coordinate exactly
when the descriptor specifies a (truthy) one. -/
theorem jdbc_pipeline (w : World) (pn : String) (opts : CmdOptions)
    (tc : TemplateConfig) (dd : String ⊕ List String) (desc : JdbcDesc)
    (hP : w.pathExists pn = false)
    (hT : w.templates (effTemplate opts.template) = some tc)
    (hD : w.driverDependencies (usedDbType w opts) = some dd)
    (hne : ddEmpty dd = false)
    (hJ : (normalizeDeps dd).head? = some jdbcDriverPkg)
    (hDesc : w.dbTypeDescription (usedDbType w opts) = some desc) :
    Effect.npmInstall (normalizeDeps dd ++ [mavenHelperPkg]) ∈
      (execute w pn opts).trace ∧
    (∃ pre post, (execute w pn opts).trace =
      pre ++
        Effect.writePackageJson (jdbcManifest (initialManifest pn tc) desc) ::
        Effect.executeCommand "npm" ["install"] :: post) ∧
    getKey (jdbcManifest (initialManifest pn tc) desc).scripts "install" =
      some mavenInstallScript ∧
    (∀ m, desc.mavenDependency = some m → (m = "" → False) →
      (jdbcManifest (initialManifest pn tc) desc).java = some [m]) ∧
    (strTruthy desc.mavenDependency = false →
      (jdbcManifest (initialManifest pn tc) desc).java = none) := by
  obtain ⟨o2, tp, hex, htp1, htp2⟩ := execute_split w pn opts tc hP hT
  have hfull : withMavenHelper (normalizeDeps dd) =
      normalizeDeps dd ++ [mavenHelperPkg] := by
    simp [withMavenHelper, hJ]
  rcases stage2_split w pn
      { projectName := pn, dbType := opts.dbType,
        template := effTemplate opts.template }
      tc o2 (usedDbType w opts) (initialManifest pn tc) (setupTrace pn tc ++ tp)
    with ⟨hf, _⟩ | ⟨dd2, hdd2, hne2, h2⟩
  · rw [hD] at hf
    simp [ddTruthy, hne] at hf
  · rw [hD] at hdd2
    cases hdd2
    rcases stage3_split w pn
        { projectName := pn, dbType := opts.dbType,
          template := effTemplate opts.template }
        tc o2 (usedDbType w opts) (initialManifest pn tc)
        (withMavenHelper (normalizeDeps dd))
        ((setupTrace pn tc ++ tp) ++
          [Effect.logStage "Installing DB driver dependencies",
           Effect.lookupDriverDeps (usedDbType w opts),
           Effect.npmInstall (withMavenHelper (normalizeDeps dd))])
      with ⟨_, hdn, h3⟩ | ⟨desc2, _, hds, h3⟩ | ⟨hj3, h3⟩
    · rw [hDesc] at hdn
      cases hdn
    · rw [hDesc] at hds
      cases hds
      have htr := hex.trans (h2.trans h3)
      rw [hfull] at htr
      refine ⟨?_, ?_, ?_, ?_, ?_⟩
      · rw [htr]
        simp [stage4, List.mem_append]
      · refine ⟨setupTrace pn tc ++ tp ++
          [Effect.logStage "Installing DB driver dependencies",
           Effect.lookupDriverDeps (usedDbType w opts),
           Effect.npmInstall (normalizeDeps dd ++ [mavenHelperPkg]),
           Effect.logStage "Installing JDBC dependencies",
           Effect.lookupJdbcDesc (usedDbType w opts),
           Effect.readJson "package.json"],
          [Effect.logStage "Writing files from template"] ++
            tc.files.flatMap (perFileEffects (envOf w pn (usedDbType w opts)
              (normalizeDeps dd ++ [mavenHelperPkg]))) ++
            depsEffects "Installing template dependencies" tc.dependencies ++
            depsEffects "Installing template dev dependencies"
              tc.devDependencies ++
            [Effect.event "Create App Success",
             Effect.logStage (pn ++ " app has been created")], ?_⟩
        rw [htr]
        simp [stage4, List.append_assoc]
      · exact getKey_setKey _ _ _
      · intro m hm hmne
        have hst : strTruthy (some m) = true := by
          simp [strTruthy]
          exact hmne
        simp [jdbcManifest, hm, hst]
      · intro hst
        simp [jdbcManifest, hst, initialManifest]
    · exact absurd ((withMavenHelper_head (normalizeDeps dd)).2 hJ) hj3

/-- Witness for C5 at a concrete input. -/
theorem jdbc_pipeline_witness :
    Effect.npmInstall [jdbcDriverPkg, mavenHelperPkg] ∈
      (execute wTest "hello-world"
        { template := none, dbType := some "jdbc" }).trace :=
  (jdbc_pipeline wTest "hello-world" { template := none, dbType := some "jdbc" }
    tcTest (Sum.inl jdbcDriverPkg)
    { mavenDependency := some "com.facebook.presto:presto-jdbc:0.217" }
    rfl rfl rfl rfl rfl rfl).1

/-- C6: in every successful run (no reported error), exactly the declared
template files are written, each with the content of its renderer applied to
the one Environment record of the run, whose `projectName` is the input
project name and whose `apiSecret` is the 128-character hexadecimal
rendering of the 64 random bytes. -/
theorem template_files_written (w : World) (pn : String) (opts : CmdOptions)
    (tc : TemplateConfig)
    (hT : w.templates (effTemplate opts.template) = some tc)
    (hE : errorsOf (execute w pn opts).trace = [])
    (hLen : w.randomBytes.length = 64) :
    ∃ env, (execute w pn opts).env = some env ∧
      writesOf (execute w pn opts).trace =
        tc.files.map (fun f => (f.1, f.2 env)) ∧
      env.projectName = pn ∧
      env.apiSecret = bytesToHex w.randomBytes ∧
      env.apiSecret.length = 128 ∧
      ∀ c ∈ env.apiSecret.data, c ∈ hexDigits := by
  have hP : w.pathExists pn = false := by
    by_cases hp : w.pathExists pn = true
    · rw [execute_exists_trace w pn opts hp] at hE
      simp [errorsOf, errProj] at hE
    · simpa using hp
  obtain ⟨o2, tp, hex, htp1, htp2⟩ := execute_split w pn opts tc hP hT
  rw [hex] at hE
  obtain ⟨deps, t2, hs, hw⟩ := stage2_success w pn
    { projectName := pn, dbType := opts.dbType,
      template := effTemplate opts.template }
    tc o2 (usedDbType w opts) (initialManifest pn tc)
    (setupTrace pn tc ++ tp) hE
  have htr := hex.trans hs
  have hwt : writesOf (setupTrace pn tc ++ tp) = [] := by
    have htp : tp = [] ∨
        tp = [Effect.prompt w.driverKeys (w.promptChoice w.driverKeys)] := by
      by_cases hdb : strTruthy opts.dbType = true
      · exact Or.inl (htp1 hdb).1
      · exact Or.inr (htp2 (by simpa using hdb)).1
    rcases htp with rfl | rfl <;>
      simp [setupTrace, writesOf, List.filterMap_append, writeProj, promptProj]
  have hw0 : List.filterMap writeProj t2 = [] := hw.trans hwt
  refine ⟨envOf w pn (usedDbType w opts) deps, ?_, ?_, rfl, rfl, ?_, ?_⟩
  · rw [htr]
    rfl
  · rw [htr]
    simp [stage4, writesOf, List.filterMap_append, writeProj,
      writeProj_perFiles, writeProj_deps, hw0]
  · show (bytesToHex w.randomBytes).length = 128
    rw [bytesToHex_length, hLen]
  · intro c hc
    exact bytesToHex_mem w.randomBytes c hc

/-- Witness for C6 at a concrete input. -/
theorem template_files_written_witness :
    ∃ env, (execute wTest "hello-world"
        { template := none, dbType := some "postgres" }).env = some env ∧
      writesOf (execute wTest "hello-world"
        { template := none, dbType := some "postgres" }).trace =
        tcTest.files.map (fun f => (f.1, f.2 env)) ∧
      env.projectName = "hello-world" ∧
      env.apiSecret = bytesToHex wTest.randomBytes ∧
      env.apiSecret.length = 128 ∧
      ∀ c ∈ env.apiSecret.data, c ∈ hexDigits :=
  template_files_written wTest "hello-world"
    { template := none, dbType := some "postgres" } tcTest rfl rfl rfl

/-- C7: whenever the two guards pass, the initial package manifest is written
with exactly the fields name = projectName, version = "0.0.1", private =
true and the template scripts (and no `java` field), and this write precedes
every installation step: the four preceding effects are the telemetry event,
the directory creation, the directory change and a stage log. -/
theorem initial_manifest_first (w : World) (pn : String) (opts : CmdOptions)
    (tc : TemplateConfig)
    (hP : w.pathExists pn = false)
    (hT : w.templates (effTemplate opts.template) = some tc) :
    ∃ post,
      (execute w pn opts).trace =
        Effect.event "Create App" :: Effect.ensureDir pn :: Effect.chdir pn ::
        Effect.logStage "Creating project structure" ::
        Effect.writePackageJson (initialManifest pn tc) :: post ∧
      ∀ e ∈ [Effect.event "Create App", Effect.ensureDir pn, Effect.chdir pn,
             Effect.logStage "Creating project structure"],
        Effect.isInstallStep e = false ∧ Effect.isManifestWrite e = false := by
  obtain ⟨o2, tp, hex, htp1, htp2⟩ := execute_split w pn opts tc hP hT
  obtain ⟨s, hs⟩ := stage2_trace_ext w pn
    { projectName := pn, dbType := opts.dbType,
      template := effTemplate opts.template }
    tc o2 (usedDbType w opts) (initialManifest pn tc) (setupTrace pn tc ++ tp)
  refine ⟨[Effect.logStage "Installing server dependencies",
           Effect.npmInstall ["@cubejs-backend/server"]] ++ tp ++ s, ?_, ?_⟩
  · rw [hex, hs]
    simp [setupTrace, List.append_assoc]
  · intro e he
    simp only [List.mem_cons, List.not_mem_nil, or_false] at he
    rcases he with rfl | rfl | rfl | rfl <;> exact ⟨rfl, rfl⟩

/-- Witness for C7 at a concrete input. -/
theorem initial_manifest_first_witness :
    ∃ post,
      (execute wTest "hello-world"
          { template := none, dbType := some "postgres" }).trace =
        Effect.event "Create App" :: Effect.ensureDir "hello-world" ::
        Effect.chdir "hello-world" ::
        Effect.logStage "Creating project structure" ::
        Effect.writePackageJson (initialManifest "hello-world" tcTest) ::
        post ∧
      ∀ e ∈ [Effect.event "Create App", Effect.ensureDir "hello-world",
             Effect.chdir "hello-world",
             Effect.logStage "Creating project structure"],
        Effect.isInstallStep e = false ∧ Effect.isManifestWrite e = false :=
  initial_manifest_first wTest "hello-world"
    { template := none, dbType := some "postgres" } tcTest rfl rfl

/-- C9: a non-array driver-dependency result is normalized to a one-element
list; the second installation of the run installs exactly the normalized
list with the Maven helper appended exactly when its first element is the
JDBC bridge driver; and the JDBC handling (the descriptor lookup) is
triggered if and only if the first element of the normalized list is the
JDBC bridge driver — a JDBC identifier at any later position does not
trigger it. -/
theorem driver_deps_normalized (w : World) (pn : String) (opts : CmdOptions)
    (tc : TemplateConfig) (dd : String ⊕ List String)
    (hP : w.pathExists pn = false)
    (hT : w.templates (effTemplate opts.template) = some tc)
    (hD : w.driverDependencies (usedDbType w opts) = some dd)
    (hne : ddEmpty dd = false) :
    (∀ s, dd = Sum.inl s → normalizeDeps dd = [s]) ∧
    (installsOf (execute w pn opts).trace)[1]? =
      some (withMavenHelper (normalizeDeps dd)) ∧
    withMavenHelper (normalizeDeps dd) =
      (if (normalizeDeps dd).head? = some jdbcDriverPkg then
        normalizeDeps dd ++ [mavenHelperPkg]
      else normalizeDeps dd) ∧
    (jdbcLookupsOf (execute w pn opts).trace = [usedDbType w opts] ↔
      (normalizeDeps dd).head? = some jdbcDriverPkg) ∧
    (((normalizeDeps dd).head? = some jdbcDriverPkg → False) →
      jdbcLookupsOf (execute w pn opts).trace = []) := by
  obtain ⟨o2, tp, hex, htp1, htp2⟩ := execute_split w pn opts tc hP hT
  have htp : tp = [] ∨
      tp = [Effect.prompt w.driverKeys (w.promptChoice w.driverKeys)] := by
    by_cases hdb : strTruthy opts.dbType = true
    · exact Or.inl (htp1 hdb).1
    · exact Or.inr (htp2 (by simpa using hdb)).1
  have hins : installsOf (setupTrace pn tc ++ tp) =
      [["@cubejs-backend/server"]] := by
    rcases htp with rfl | rfl <;>
      simp [setupTrace, installsOf, List.filterMap_append, installProj,
        promptProj]
  have hj0 : jdbcLookupsOf (setupTrace pn tc ++ tp) = [] := by
    rcases htp with rfl | rfl <;>
      simp [setupTrace, jdbcLookupsOf, List.filterMap_append, jdbcProj,
        promptProj]
  refine ⟨?_, ?_, rfl, ?_, ?_⟩
  · intro s hdd
    rw [hdd]
    rfl
  · rw [hex]
    obtain ⟨rest, hr⟩ := stage2_installs_eq w pn
      { projectName := pn, dbType := opts.dbType,
        template := effTemplate opts.template }
      tc o2 (usedDbType w opts) (initialManifest pn tc)
      (setupTrace pn tc ++ tp) dd hD hne
    rw [hr, hins]
    simp
  · rw [hex, stage2_jdbc_eq w pn
      { projectName := pn, dbType := opts.dbType,
        template := effTemplate opts.template }
      tc o2 (usedDbType w opts) (initialManifest pn tc)
      (setupTrace pn tc ++ tp) dd hD hne, hj0]
    by_cases hj : (normalizeDeps dd).head? = some jdbcDriverPkg <;> simp [hj]
  · intro hj
    have hj' : ¬ (normalizeDeps dd).head? = some jdbcDriverPkg := hj
    rw [hex, stage2_jdbc_eq w pn
      { projectName := pn, dbType := opts.dbType,
        template := effTemplate opts.template }
      tc o2 (usedDbType w opts) (initialManifest pn tc)
      (setupTrace pn tc ++ tp) dd hD hne, hj0]
    simp [hj']

/-- Witness for C9 at a concrete input: a driver list whose second element is
the JDBC bridge driver does not trigger the JDBC handling. -/
theorem driver_deps_normalized_witness :
    jdbcLookupsOf (execute wTest "hello-world"
        { template := none, dbType := some "multi" }).trace = [] :=
  (driver_deps_normalized wTest "hello-world"
    { template := none, dbType := some "multi" } tcTest
    (Sum.inr ["@cubejs-backend/postgres-driver", jdbcDriverPkg])
    rfl rfl rfl rfl).2.2.2.2 (by decide)

end CreateCmd
